import Mathlib

set_option maxRecDepth 8192

/-!
Verification development for the go2web HTTP client (src/go2web.py).

The embedding translates the pure request/response logic of
`CustomHTTPRequest.get`, `Go2Web.make_http_request` and the search-result
cache into Lean.  Network and file I/O are abstracted as explicit inputs:
the socket connect/send/receive-all phase of `get` becomes an oracle
`net : String -> Except String String` mapping the serialized request bytes
to either the raw response text (already decoded with errors replaced, as
the source does) or a transport error.  The structured-markup parsing black
box (BeautifulSoup) is a parameter `findMeta`; a concrete model of it,
faithful to the spec's description, is given as `bs4FindMetaRefresh`.

All string helpers are implemented by structural recursion on the
underlying character list so that every definition evaluates inside the
kernel (rfl / decide).
-/

/-- Split a character list at the first occurrence of `sep`; models Python
    `s.find(sep)` followed by slicing `s[:i]` / `s[i+len(sep):]`.
    Returns `none` when `sep` does not occur. -/
def splitAtFirstAux (sep : List Char) : List Char → Option (List Char × List Char)
  | [] => if sep.isEmpty then some ([], []) else none
  | c :: cs =>
    if sep.isPrefixOf (c :: cs) then some ([], List.drop sep.length (c :: cs))
    else
      match splitAtFirstAux sep cs with
      | some (pre, post) => some (c :: pre, post)
      | none => none

/-- String wrapper for `splitAtFirstAux`. -/
def splitAtFirst (sep s : String) : Option (String × String) :=
  (splitAtFirstAux sep.data s.data).map fun p => (⟨p.1⟩, ⟨p.2⟩)

/-- Models Python `sep in s` (substring containment). -/
def strContains (s pat : String) : Bool :=
  (splitAtFirst pat s).isSome

/-- Fuel-driven worker for `pySplitStr`; the fuel is an upper bound on the
    number of separator occurrences, so structural recursion suffices. -/
def pySplitFuel (sep : List Char) : Nat → List Char → List (List Char)
  | 0, l => [l]
  | fuel + 1, l =>
    match splitAtFirstAux sep l with
    | none => [l]
    | some (pre, post) => pre :: pySplitFuel sep fuel post

/-- Models Python `s.split(sep)` with an explicit separator: keeps empty
    pieces, never drops the final piece.  `"".split(sep) = [""]`. -/
def pySplitStr (sep s : String) : List String :=
  if sep.data.isEmpty then [s]
  else (pySplitFuel sep.data s.data.length s.data).map fun l => (⟨l⟩ : String)

/-- Models Python `s.strip()` (for the ASCII whitespace the source ever
    meets; Python additionally strips \x0b and \x0c, which never occur in
    the inputs of interest). -/
def pyStrip (s : String) : String :=
  ⟨((s.data.dropWhile Char.isWhitespace).reverse.dropWhile Char.isWhitespace).reverse⟩

/-- Models Python `s.lower()` on ASCII data. -/
def pyLower (s : String) : String :=
  ⟨s.data.map Char.toLower⟩

/-- Models Python `s.startswith(p)` / the anchored regex match used in
    `make_http_request`. -/
def pyStartsWith (s p : String) : Bool :=
  p.data.isPrefixOf s.data

/-- Drop the first `n` characters of a string (Python slice `s[n:]`). -/
def strDrop (s : String) (n : Nat) : String :=
  ⟨s.data.drop n⟩

/-- Accumulator worker for `digitsToNat`. -/
def digitsToNatAux : Nat → List Char → Option Nat
  | acc, [] => some acc
  | acc, c :: cs =>
    if c.isDigit then digitsToNatAux (acc * 10 + (c.toNat - 48)) cs else none

/-- Parse a nonempty all-digit character list as a natural number. -/
def digitsToNat : List Char → Option Nat
  | [] => none
  | c :: cs => digitsToNatAux 0 (c :: cs)

/-- Models Python `int(s)` on the inputs the source meets: optional
    surrounding whitespace, an optional sign, then decimal digits.
    (Python additionally accepts underscores between digits and unicode
    digits; those never occur in HTTP status lines.) -/
def pyInt (s : String) : Option Int :=
  match (pyStrip s).data with
  | '-' :: rest => (digitsToNat rest).map fun n => -(n : Int)
  | '+' :: rest => (digitsToNat rest).map fun n => (n : Int)
  | t => (digitsToNat t).map fun n => (n : Int)

/-- Insertion into an association list with Python-dict semantics:
    an existing key keeps its position and gets the new value, a new key is
    appended at the end. -/
def dictInsertL {α : Type} : List (String × α) → String → α → List (String × α)
  | [], k, v => [(k, v)]
  | (k0, v0) :: rest, k, v =>
    if k0 = k then (k0, v) :: rest else (k0, v0) :: dictInsertL rest k v

/-- Lookup in an association list (Python `d[k]` / `k in d`). -/
def dictFind? {α : Type} : List (String × α) → String → Option α
  | [], _ => none
  | (k0, v0) :: rest, k => if k0 = k then some v0 else dictFind? rest k

/-- Models Python `d.update(e)`: inserts every pair of `e`, in order. -/
def dictUpdateL {α : Type} (d e : List (String × α)) : List (String × α) :=
  e.foldl (fun acc kv => dictInsertL acc kv.1 kv.2) d

/-- Boolean error test for `Except`. -/
def isErr {α : Type} : Except String α → Bool
  | .error _ => true
  | .ok _ => false

/-- Parse one header section line list into the response header map,
    go2web.py lines 81-86: empty lines are skipped; a nonempty line is
    split at its first colon (`header_line.split(':', 1)`) — when no colon
    is present the unpacking raises, which the embedding models as an
    error; keys are stripped and lower-cased, values stripped; a repeated
    key overwrites the previous value (Python dict assignment). -/
def parseHeaderLinesAux (acc : List (String × String)) :
    List String → Except String (List (String × String))
  | [] => .ok acc
  | line :: rest =>
    if line = "" then parseHeaderLinesAux acc rest
    else
      match splitAtFirst ":" line with
      | none => .error "not enough values to unpack (expected 2, got 1)"
      | some (k, v) =>
        parseHeaderLinesAux (dictInsertL acc (pyLower (pyStrip k)) (pyStrip v)) rest

/-- Header-map construction over the lines after the status line. -/
def parseHeaderLines (lines : List String) : Except String (List (String × String)) :=
  parseHeaderLinesAux [] lines

/-- Status-code extraction from the status line, go2web.py line 78:
    `int(status_line.split(' ')[1])`; `none` models the IndexError /
    ValueError that the surrounding `try` turns into a RequestException. -/
def statusCodeOf (statusLine : String) : Option Int :=
  match pySplitStr " " statusLine with
  | _ :: tok :: _ => pyInt tok
  | _ => none

/-- Components produced by `urllib.parse.urlsplit` (params handling of
    `urlparse` is omitted: no input of interest contains `;`). -/
structure UrlParts where
  scheme : String
  netloc : String
  path : String
  query : String
  fragment : String
deriving Repr, DecidableEq

/-- Characters CPython accepts inside a URL scheme. -/
def isSchemeChar (c : Char) : Bool :=
  c.isAlpha || c.isDigit || c == '+' || c == '-' || c == '.'

/-- Scheme detection of CPython urlsplit: the text before the first colon
    is a scheme when it is nonempty and made of scheme characters only. -/
def schemeSplit (s : String) : Option (String × String) :=
  match splitAtFirst ":" s with
  | none => none
  | some (pre, post) =>
    if !pre.data.isEmpty && pre.data.all isSchemeChar then some (pyLower pre, post)
    else none

/-- Netloc extraction: everything after `//` up to the first of `/?#`. -/
def splitNetloc (s : String) : String × String :=
  let netloc := s.data.takeWhile fun c => !(c == '/' || c == '?' || c == '#')
  (⟨netloc⟩, ⟨s.data.drop netloc.length⟩)

/-- Models `urllib.parse.urlsplit(url, defScheme)` (CPython): scheme split,
    then netloc after a leading `//`, then fragment at the first `#`, then
    query at the first `?`. -/
def pyUrlsplit (url : String) (defScheme : String) : UrlParts :=
  let sr := match schemeSplit url with
    | some p => p
    | none => (defScheme, url)
  let scheme := sr.1
  let nr := if pyStartsWith sr.2 "//" then splitNetloc (strDrop sr.2 2) else ("", sr.2)
  let netloc := nr.1
  let fr := match splitAtFirst "#" nr.2 with
    | some p => p
    | none => (nr.2, "")
  let qr := match splitAtFirst "?" fr.1 with
    | some p => p
    | none => (fr.1, "")
  ⟨scheme, netloc, qr.1, qr.2, fr.2⟩

/-- `urlparse(u).netloc` as used by the source's relative-target tests. -/
def pyNetloc (u : String) : String :=
  (pyUrlsplit u "").netloc

/-- Schemes that allow relative resolution (urllib `uses_relative`). -/
def usesRelative : List String :=
  ["", "ftp", "http", "gopher", "nntp", "imap", "wais", "file", "https",
   "shttp", "mms", "prospero", "rtsp", "rtspu", "sftp", "svn", "svn+ssh",
   "ws", "wss"]

/-- Schemes that use a network location (urllib `uses_netloc`). -/
def usesNetloc : List String :=
  ["", "ftp", "http", "gopher", "nntp", "telnet", "imap", "wais", "file",
   "mms", "https", "shttp", "snews", "prospero", "rtsp", "rtspu", "rsync",
   "svn", "svn+ssh", "sftp", "nfs", "git", "git+ssh", "ws", "wss"]

/-- Models `urllib.parse.urlunsplit`. -/
def pyUrlunsplit (scheme netloc path query fragment : String) : String :=
  let url := path
  let url :=
    if !netloc.data.isEmpty || pyStartsWith url "//" then
      let u := if !url.data.isEmpty && !pyStartsWith url "/" then "/" ++ url else url
      "//" ++ netloc ++ u
    else url
  let url := if !scheme.data.isEmpty then scheme ++ ":" ++ url else url
  let url := if !query.data.isEmpty then url ++ "?" ++ query else url
  if !fragment.data.isEmpty then url ++ "#" ++ fragment else url

/-- `'/'.join(l)`. -/
def strJoinSlash : List String → String
  | [] => ""
  | [s] => s
  | s :: rest => s ++ "/" ++ strJoinSlash rest

/-- Last element of a nonempty list of segments ("" for the empty list,
    which `split` never produces). -/
def lastSeg : List String → String
  | [] => ""
  | [s] => s
  | _ :: rest => lastSeg rest

/-- Drop empty segments except in last position (worker for
    `filterMiddle`). -/
def filterTail : List String → List String
  | [] => []
  | [s] => [s]
  | s :: rest => if s.data.isEmpty then filterTail rest else s :: filterTail rest

/-- Models `segments[1:-1] = filter(None, segments[1:-1])`: empty segments
    are removed except in first and last position. -/
def filterMiddle : List String → List String
  | [] => []
  | [s] => [s]
  | s :: rest => s :: filterTail rest

/-- Dot-segment resolution loop of urljoin (`resolved_path`); `..` pops,
    a pop on the empty stack is ignored, `.` is skipped. -/
def resolveSegsGo : List String → List String → List String
  | acc, [] => acc.reverse
  | acc, s :: rest =>
    if s = ".." then resolveSegsGo (acc.drop 1) rest
    else if s = "." then resolveSegsGo acc rest
    else resolveSegsGo (s :: acc) rest

/-- Models `urllib.parse.urljoin(base, url)` (CPython, params handling
    omitted — no input of interest contains `;`). -/
def pyUrljoin (base url : String) : String :=
  if base.data.isEmpty then url
  else if url.data.isEmpty then base
  else
    let b := pyUrlsplit base ""
    let r := pyUrlsplit url b.scheme
    if r.scheme != b.scheme || !usesRelative.contains r.scheme then url
    else if usesNetloc.contains r.scheme && !r.netloc.data.isEmpty then
      pyUrlunsplit r.scheme r.netloc r.path r.query r.fragment
    else
      let netloc := if usesNetloc.contains r.scheme then b.netloc else r.netloc
      if r.path.data.isEmpty then
        let query := if r.query.data.isEmpty then b.query else r.query
        pyUrlunsplit r.scheme netloc b.path query r.fragment
      else
        let baseParts0 := pySplitStr "/" b.path
        let baseParts := if lastSeg baseParts0 = "" then baseParts0 else baseParts0.dropLast
        let segments :=
          if pyStartsWith r.path "/" then pySplitStr "/" r.path
          else filterMiddle (baseParts ++ pySplitStr "/" r.path)
        let resolved := resolveSegsGo [] segments
        let resolved :=
          if lastSeg segments = "." || lastSeg segments = ".." then resolved ++ [""]
          else resolved
        let joined := strJoinSlash resolved
        let path := if joined.data.isEmpty then "/" else joined
        pyUrlunsplit r.scheme netloc path r.query r.fragment

/-- The `Response` class of go2web.py (lines 145-151): status code, body
    text, the raw header section, and the URL that produced the response. -/
structure Response where
  status_code : Int
  text : String
  headers : String
  url : String
deriving Repr, DecidableEq

instance {ε α : Type} [DecidableEq ε] [DecidableEq α] : DecidableEq (Except ε α) := fun a b =>
  match a, b with
  | .error x, .error y =>
    if h : x = y then isTrue (h ▸ rfl) else isFalse fun hc => h (Except.error.inj hc)
  | .ok x, .ok y =>
    if h : x = y then isTrue (h ▸ rfl) else isFalse fun hc => h (Except.ok.inj hc)
  | .error _, .ok _ => isFalse fun hc => Except.noConfusion hc
  | .ok _, .error _ => isFalse fun hc => Except.noConfusion hc

/-- Result of one `CustomHTTPRequest.get` call: the outcome (`.error`
    models a raised RequestException) together with the number of network
    round trips (socket connect/send/receive cycles) performed. -/
structure GetResult where
  result : Except String Response
  trips : Nat
deriving Repr, DecidableEq

/-- The default headers set in `CustomHTTPRequest.__init__`. -/
def defaultHeaders : List (String × String) :=
  [("User-Agent", "Mozilla/5.0 (Windows NT 10.0; Win64; x64) AppleWebKit/537.36 (KHTML, like Gecko) Chrome/91.0.4472.124 Safari/537.36"),
   ("Accept-Language", "en-US,en;q=0.9")]

/-- Serialization of the outbound request, go2web.py lines 30-48: request
    line from the parsed path and query, `Host` from the netloc, the
    combined headers in order, then `Connection: close` and the blank
    line. -/
def buildRequest (url : String) (combined : List (String × String)) : String :=
  let p := pyUrlsplit url ""
  let path0 := if p.path.data.isEmpty then "/" else p.path
  let path := if !p.query.data.isEmpty then path0 ++ "?" ++ p.query else path0
  "GET " ++ path ++ " HTTP/1.1\r\nHost: " ++ p.netloc ++ "\r\n" ++
    (combined.foldl (fun acc kv => acc ++ kv.1 ++ ": " ++ kv.2 ++ "\r\n") "") ++
    "Connection: close\r\n\r\n"

/-- `CustomHTTPRequest._create_redirect_html` (lines 129-135). -/
def createRedirectHtml (statusCode : Int) (redirectUrl : String) : String :=
  "<HTML><HEAD><meta http-equiv=\"content-type\" content=\"text/html;charset=utf-8\">\n<TITLE>"
    ++ toString statusCode ++ " Moved</TITLE></HEAD><BODY>\n<H1>"
    ++ toString statusCode ++ " Moved</H1>\nThe document has moved <A HREF=\""
    ++ redirectUrl ++ "\">" ++ redirectUrl ++ "</A>.\n</BODY></HTML>"

/-- `CustomHTTPRequest._create_meta_redirect_html` (lines 137-142). -/
def createMetaRedirectHtml (redirectUrl : String) : String :=
  "<!DOCTYPE HTML PUBLIC \"-//W3C//DTD HTML 3.2 Final//EN\">\n<title>Redirecting...</title>\n<h1>Redirecting...</h1>\n<p>You should be redirected automatically to target URL: <a href=\""
    ++ redirectUrl ++ "\">" ++ redirectUrl ++ "</a>.</p>"

/-- The single-quote character, written by code point to keep the source
    free of quote-literal noise. -/
def quoteChar1 : Char := Char.ofNat 39

/-- A quote character of the regex character class used at line 108. -/
def isQuoteChar (c : Char) : Bool :=
  c == quoteChar1 || c == '"'

/-- Characters of a lazy `(.*?)` capture up to the next quote; fails when a
    newline (which `.` cannot match) or the end arrives first. -/
def takeUntilQuote : List Char → Option (List Char)
  | [] => none
  | c :: cs =>
    if isQuoteChar c then some []
    else if c == '\n' then none
    else (takeUntilQuote cs).map fun l => c :: l

/-- Leftmost match of the regex `url=['"](.*?)['"]` (line 108, first
    alternative): returns the captured group. -/
def findUrlQuoted : List Char → Option (List Char)
  | [] => none
  | c :: cs =>
    if ['u', 'r', 'l', '='].isPrefixOf (c :: cs) then
      match (c :: cs).drop 4 with
      | q :: rest =>
        if isQuoteChar q then
          match takeUntilQuote rest with
          | some cap => some cap
          | none => findUrlQuoted cs
        else findUrlQuoted cs
      | [] => findUrlQuoted cs
    else findUrlQuoted cs

/-- Greedy `(.*)` capture: everything up to the next newline or the end. -/
def takeUntilNewline (l : List Char) : List Char :=
  l.takeWhile fun c => !(c == '\n')

/-- Leftmost match of the fallback regex `url=(.*)` (line 108, second
    alternative): returns the captured group. -/
def findUrlUnquoted : List Char → Option (List Char)
  | [] => none
  | c :: cs =>
    if ['u', 'r', 'l', '='].isPrefixOf (c :: cs) then
      some (takeUntilNewline ((c :: cs).drop 4))
    else findUrlUnquoted cs

/-- Modelled from the spec: the structured-markup parsing black box
    (BeautifulSoup's `soup.find('meta', http-equiv refresh)` plus the
    `content` attribute access, lines 104-107), which the spec declares an
    external collaborator ("the HTML/DOM parsing capability itself is
    assumed as a black box").  Per spec section 4.3 it reports the
    directive value of the first refresh-equivalent metadata tag,
    case-insensitively; the model scans the lower-cased body for the first
    canonical serialization of such a tag and returns its content
    attribute (already lower-cased, exactly as line 107 lower-cases the
    attribute before use).  It never fails; a failing parser is covered by
    the `findMeta` parameter of `get`. -/
def bs4FindMetaRefresh (body : String) : Except String (Option String) :=
  match splitAtFirst "<meta http-equiv=\"refresh\" content=\"" (pyLower body) with
  | none => .ok none
  | some (_, rest) =>
    match splitAtFirst "\"" rest with
    | none => .ok none
    | some (content, _) => .ok (some content)

/-- Relative-target absolutization used at lines 92-93 and 112-113: a
    target without an authority component is joined against the URL being
    processed. -/
def absolutize (currentUrl target : String) : String :=
  if pyNetloc target = "" then pyUrljoin currentUrl target else target

/-- The tail of `CustomHTTPRequest.get` after the protocol-redirect check
    (lines 101-125): the document-redirect check and the final return.
    The meta branch runs only when the status is 200 and the body contains
    `</html>` (case-insensitive); a failure of the markup parser is
    swallowed (lines 120-122) and the response returned unchanged. -/
def metaOrFinal (findMeta : String → Except String (Option String))
    (url : String) (statusCode : Int) (headersRaw body : String) : Except String Response :=
  if statusCode = 200 ∧ strContains (pyLower body) "</html>" = true then
    match findMeta body with
    | .error _ => .ok ⟨statusCode, body, headersRaw, url⟩
    | .ok none => .ok ⟨statusCode, body, headersRaw, url⟩
    | .ok (some content0) =>
      let content := pyLower content0
      match findUrlQuoted content.data with
      | some cap => .ok ⟨200, createMetaRedirectHtml (absolutize url ⟨cap⟩), headersRaw, url⟩
      | none =>
        match findUrlUnquoted content.data with
        | some cap => .ok ⟨200, createMetaRedirectHtml (absolutize url ⟨cap⟩), headersRaw, url⟩
        | none => .ok ⟨statusCode, body, headersRaw, url⟩
  else .ok ⟨statusCode, body, headersRaw, url⟩

/-- Outcome of one `CustomHTTPRequest.get` call (go2web.py lines 20-127).
    `findMeta` abstracts the BeautifulSoup black box, `net` the socket
    round trip (request bytes in, raw decoded response text or transport
    error out).  The decode follows the source exactly: split at the first
    `\r\n\r\n`, parse the second status-line token as an integer, build
    the header dictionary, then surface a protocol redirect (3xx with a
    `location` key) as a synthesized notice, otherwise look for a document
    redirect, otherwise return the response as is.  Any failure before the
    meta branch is a RequestException (`.error`).  The `maxRedirects`
    parameter is received but — exactly as in the source, whose
    `redirects_followed` counter is never consulted — not used. -/
def getResult (findMeta : String → Except String (Option String))
    (net : String → Except String String)
    (url : String) (headers : List (String × String)) (maxRedirects : Nat) :
    Except String Response :=
  let combined := dictUpdateL defaultHeaders headers
  match net (buildRequest url combined) with
  | .error e => .error ("Error during request to " ++ url ++ ": " ++ e)
  | .ok responseStr =>
    match splitAtFirst "\r\n\r\n" responseStr with
    | none => .error ("Error during request to " ++ url ++ ": Invalid HTTP response")
    | some (headersRaw, body) =>
      match pySplitStr "\r\n" headersRaw with
      | [] => .error ("Error during request to " ++ url ++ ": Invalid HTTP response")
      | statusLine :: restLines =>
        match statusCodeOf statusLine with
        | none => .error ("Error during request to " ++ url ++ ": invalid status line")
        | some statusCode =>
          match parseHeaderLines restLines with
          | .error e => .error ("Error during request to " ++ url ++ ": " ++ e)
          | .ok headersDict =>
            if 300 ≤ statusCode ∧ statusCode < 400 then
              match dictFind? headersDict "location" with
              | some loc =>
                .ok ⟨statusCode, createRedirectHtml statusCode (absolutize url loc),
                     headersRaw, url⟩
              | none => metaOrFinal findMeta url statusCode headersRaw body
            else metaOrFinal findMeta url statusCode headersRaw body

/-- `CustomHTTPRequest.get` with its round-trip count.  The source
    contains exactly one socket connect/send/receive block (lines 51-66)
    and no loop or recursion, so every call — success or failure —
    performs exactly one network round trip. -/
def get (findMeta : String → Except String (Option String))
    (net : String → Except String String)
    (url : String) (headers : List (String × String)) (maxRedirects : Nat) : GetResult :=
  ⟨getResult findMeta net url headers maxRedirects, 1⟩

/-- `Go2Web.make_http_request` (lines 270-292), with the presentation-layer
    `format_content` abstracted as the parameter `fmt` (body, url) and the
    `print` call dropped.  A URL without an `http://` or `https://` prefix
    is defaulted to `http://`; the request is made with `self.headers`
    (the same `defaultHeaders`); a 3xx response formats the synthesized
    redirect notice, an error status (>= 400) is returned raw, anything
    else is formatted; a RequestException becomes an error string. -/
def make_http_request (fmt : String → String → String)
    (findMeta : String → Except String (Option String))
    (net : String → Except String String)
    (url : String) (maxRedirects : Nat) : String :=
  let url' :=
    if pyStartsWith url "http://" || pyStartsWith url "https://" then url
    else "http://" ++ url
  match (get findMeta net url' defaultHeaders maxRedirects).result with
  | .error e => "Error fetching URL: " ++ e
  | .ok resp =>
    if 300 ≤ resp.status_code ∧ resp.status_code < 400 then fmt resp.text url'
    else if 400 ≤ resp.status_code then resp.text
    else fmt resp.text resp.url

/-- One entry of the persisted cache file (lines 206-211): the result
    strings and the epoch timestamp written at save time. -/
structure CacheFileEntry where
  results : List String
  timestamp : Nat
deriving Repr, DecidableEq

/-- `Go2Web._save_cache` (lines 202-215): the persisted map is rebuilt
    from the in-memory map, stamping every entry with the current time
    (`time.time()` is called per entry at save time; the in-memory map
    holds no timestamps, they are dropped by `_load_cache`). -/
def save_cache (mem : List (String × List String)) (now : Nat) :
    List (String × CacheFileEntry) :=
  mem.map fun qr => (qr.1, ⟨qr.2, now⟩)

/-- The store step of `Go2Web.search_web` (lines 331-334):
    `self.search_results_cache[query] = results` followed by
    `self._save_cache()`.  Returns the new in-memory map and the persisted
    map written to disk. -/
def cacheStore (mem : List (String × List String)) (k : String) (v : List String)
    (now : Nat) : List (String × List String) × List (String × CacheFileEntry) :=
  let mem' := dictInsertL mem k v
  (mem', save_cache mem' now)

/-- Unfolding lemma for `get` (the name `get` itself is overloaded in the
    ambient library, so rewriting goes through this equation). -/
theorem get_def (findMeta : String → Except String (Option String))
    (net : String → Except String String) (url : String)
    (headers : List (String × String)) (maxRedirects : Nat) :
    get findMeta net url headers maxRedirects =
      ⟨getResult findMeta net url headers maxRedirects, 1⟩ := rfl

/-- Inserting a key makes it map to the new value. -/
theorem dictFind_insert_self {α : Type} (d : List (String × α)) (k : String) (v : α) :
    dictFind? (dictInsertL d k v) k = some v := by
  induction d with
  | nil => simp [dictInsertL, dictFind?]
  | cons kv rest ih =>
    by_cases h : kv.1 = k
    · simp [dictInsertL, dictFind?, h]
    · simp [dictInsertL, dictFind?, h, ih]

/-- Inserting a key leaves every other key's value unchanged. -/
theorem dictFind_insert_other {α : Type} (d : List (String × α)) (k k' : String) (v : α)
    (hne : k' ≠ k) :
    dictFind? (dictInsertL d k v) k' = dictFind? d k' := by
  have hkk : ¬(k = k') := fun h => hne h.symm
  induction d with
  | nil => simp [dictInsertL, dictFind?, hkk]
  | cons kv rest ih =>
    by_cases h : kv.1 = k
    · simp [dictInsertL, dictFind?, h, hkk]
    · by_cases h' : kv.1 = k'
      · simp [dictInsertL, dictFind?, h, h', hne]
      · simp [dictInsertL, dictFind?, h, h', ih]

/-- A save rebuilds the persisted entry of every key from the in-memory
    results, stamped with the save time. -/
theorem dictFind_save_cache (mem : List (String × List String)) (now : Nat) (q : String) :
    dictFind? (save_cache mem now) q = (dictFind? mem q).map fun rs => ⟨rs, now⟩ := by
  induction mem with
  | nil => simp [save_cache, dictFind?]
  | cons kv rest ih =>
    by_cases h : kv.1 = q
    · simp [save_cache, dictFind?, h]
    · simpa [save_cache, dictFind?, h] using ih

/-- Claim C2: for every redirect budget N >= 0, a single fetch operation
    terminates (it is a total function) and performs at most N + 1 network
    round trips; the source in fact always performs exactly one. -/
theorem get_round_trips_bounded (findMeta : String → Except String (Option String))
    (net : String → Except String String) (url : String)
    (headers : List (String × String)) (maxRedirects : Nat) :
    (get findMeta net url headers maxRedirects).trips ≤ maxRedirects + 1 := by
  have h : (get findMeta net url headers maxRedirects).trips = 1 := rfl
  omega

/-- Claim C10: the `max_redirects` parameter has no influence whatsoever on
    the result of `get`: the source initializes `redirects_followed` and
    never reads it, and contains no redirect-following loop. -/
theorem get_ignores_redirect_budget (findMeta : String → Except String (Option String))
    (net : String → Except String String) (url : String)
    (headers : List (String × String)) (n m : Nat) :
    get findMeta net url headers n = get findMeta net url headers m := rfl

/-- Claim C1: a response whose status code lies in [300, 400) and whose
    parsed header map contains a `location` key is surfaced, after exactly
    one network round trip, as a Response with the original 3xx status
    code whose body is the synthesized redirect notice naming that status
    code and the absolutized target. -/
theorem get_surfaces_protocol_redirect
    (findMeta : String → Except String (Option String))
    (net : String → Except String String)
    (url : String) (headers : List (String × String)) (maxRedirects : Nat)
    (raw headersRaw body statusLine : String) (restLines : List String)
    (headersDict : List (String × String)) (sc : Int) (loc : String)
    (hnet : net (buildRequest url (dictUpdateL defaultHeaders headers)) = .ok raw)
    (hsplit : splitAtFirst "\r\n\r\n" raw = some (headersRaw, body))
    (hlines : pySplitStr "\r\n" headersRaw = statusLine :: restLines)
    (hsc : statusCodeOf statusLine = some sc)
    (hhd : parseHeaderLines restLines = .ok headersDict)
    (h300 : 300 ≤ sc) (h400 : sc < 400)
    (hloc : dictFind? headersDict "location" = some loc) :
    get findMeta net url headers maxRedirects =
      ⟨.ok ⟨sc, createRedirectHtml sc (absolutize url loc), headersRaw, url⟩, 1⟩ := by
  rw [get_def]
  unfold getResult
  simp [hnet, hsplit, hlines, hsc, hhd, hloc, h300, h400]

/-- Witness for claim C1 at a concrete 301 response. -/
theorem get_surfaces_protocol_redirect_witness :
    get bs4FindMetaRefresh
      (fun _ => .ok "HTTP/1.1 301 Moved Permanently\r\nLocation: http://other.example/x\r\n\r\nbody")
      "http://example.com/" [] 5 =
      ⟨.ok ⟨301, createRedirectHtml 301 (absolutize "http://example.com/" "http://other.example/x"),
        "HTTP/1.1 301 Moved Permanently\r\nLocation: http://other.example/x",
        "http://example.com/"⟩, 1⟩ :=
  get_surfaces_protocol_redirect bs4FindMetaRefresh
    (fun _ => .ok "HTTP/1.1 301 Moved Permanently\r\nLocation: http://other.example/x\r\n\r\nbody")
    "http://example.com/" [] 5
    "HTTP/1.1 301 Moved Permanently\r\nLocation: http://other.example/x\r\n\r\nbody"
    "HTTP/1.1 301 Moved Permanently\r\nLocation: http://other.example/x" "body"
    "HTTP/1.1 301 Moved Permanently" ["Location: http://other.example/x"]
    [("location", "http://other.example/x")] 301 "http://other.example/x"
    rfl rfl rfl rfl rfl (by decide) (by decide) rfl

/-- Claim C3: a 3xx response whose `location` value has no authority
    component is resolved relative to the URL of the response being
    processed (via urljoin); in particular `Location: /new` against
    `http://example.com/old` resolves to `http://example.com/new`. -/
theorem get_resolves_relative_location
    (findMeta : String → Except String (Option String))
    (net : String → Except String String)
    (url : String) (headers : List (String × String)) (maxRedirects : Nat)
    (raw headersRaw body statusLine : String) (restLines : List String)
    (headersDict : List (String × String)) (sc : Int) (loc : String)
    (hnet : net (buildRequest url (dictUpdateL defaultHeaders headers)) = .ok raw)
    (hsplit : splitAtFirst "\r\n\r\n" raw = some (headersRaw, body))
    (hlines : pySplitStr "\r\n" headersRaw = statusLine :: restLines)
    (hsc : statusCodeOf statusLine = some sc)
    (hhd : parseHeaderLines restLines = .ok headersDict)
    (h300 : 300 ≤ sc) (h400 : sc < 400)
    (hloc : dictFind? headersDict "location" = some loc)
    (hrel : pyNetloc loc = "") :
    get findMeta net url headers maxRedirects =
      ⟨.ok ⟨sc, createRedirectHtml sc (pyUrljoin url loc), headersRaw, url⟩, 1⟩
    ∧ pyUrljoin "http://example.com/old" "/new" = "http://example.com/new" := by
  constructor
  · rw [get_def]
    unfold getResult
    simp [hnet, hsplit, hlines, hsc, hhd, hloc, h300, h400, absolutize, hrel]
  · rfl

/-- Witness for claim C3: the spec's 301 `Location: /new` scenario against
    `http://example.com/old`. -/
theorem get_resolves_relative_location_witness :
    get bs4FindMetaRefresh
      (fun _ => .ok "HTTP/1.1 301 Moved Permanently\r\nLocation: /new\r\n\r\n")
      "http://example.com/old" [] 5 =
      ⟨.ok ⟨301, createRedirectHtml 301 (pyUrljoin "http://example.com/old" "/new"),
        "HTTP/1.1 301 Moved Permanently\r\nLocation: /new", "http://example.com/old"⟩, 1⟩
    ∧ pyUrljoin "http://example.com/old" "/new" = "http://example.com/new" :=
  get_resolves_relative_location bs4FindMetaRefresh
    (fun _ => .ok "HTTP/1.1 301 Moved Permanently\r\nLocation: /new\r\n\r\n")
    "http://example.com/old" [] 5
    "HTTP/1.1 301 Moved Permanently\r\nLocation: /new\r\n\r\n"
    "HTTP/1.1 301 Moved Permanently\r\nLocation: /new" ""
    "HTTP/1.1 301 Moved Permanently" ["Location: /new"]
    [("location", "/new")] 301 "/new"
    rfl rfl rfl rfl rfl (by decide) (by decide) rfl rfl

/-- Claim C7: on a 200 response, a failure of the markup parser during
    document-redirect detection is swallowed: `get` does not error and
    returns the response as final with its body unchanged (go2web.py lines
    120-122; the statement holds whether or not the body passes the
    `</html>` pre-check, since without it the parser is not even run). -/
theorem get_meta_parse_failure_swallowed
    (findMeta : String → Except String (Option String))
    (net : String → Except String String)
    (url : String) (headers : List (String × String)) (maxRedirects : Nat)
    (raw headersRaw body statusLine : String) (restLines : List String)
    (headersDict : List (String × String)) (e : String)
    (hnet : net (buildRequest url (dictUpdateL defaultHeaders headers)) = .ok raw)
    (hsplit : splitAtFirst "\r\n\r\n" raw = some (headersRaw, body))
    (hlines : pySplitStr "\r\n" headersRaw = statusLine :: restLines)
    (hsc : statusCodeOf statusLine = some 200)
    (hhd : parseHeaderLines restLines = .ok headersDict)
    (herr : findMeta body = .error e) :
    (get findMeta net url headers maxRedirects).result = .ok ⟨200, body, headersRaw, url⟩ := by
  rw [get_def]
  unfold getResult
  simp only [hnet, hsplit, hlines, hsc, hhd]
  have h3 : ¬((300 : Int) ≤ 200 ∧ (200 : Int) < 400) := by omega
  simp only [if_neg h3]
  by_cases hh : strContains (pyLower body) "</html>" = true
  · simp [metaOrFinal, hh, herr]
  · simp [metaOrFinal, hh]

/-- Witness for claim C7 with an always-failing markup parser. -/
theorem get_meta_parse_failure_swallowed_witness :
    (get (fun _ => .error "soup crashed")
      (fun _ => .ok "HTTP/1.1 200 OK\r\nContent-Type: text/html\r\n\r\n<html><body>hi</body></html>")
      "http://example.com/" [] 5).result =
      .ok ⟨200, "<html><body>hi</body></html>",
        "HTTP/1.1 200 OK\r\nContent-Type: text/html", "http://example.com/"⟩ :=
  get_meta_parse_failure_swallowed (fun _ => .error "soup crashed")
    (fun _ => .ok "HTTP/1.1 200 OK\r\nContent-Type: text/html\r\n\r\n<html><body>hi</body></html>")
    "http://example.com/" [] 5
    "HTTP/1.1 200 OK\r\nContent-Type: text/html\r\n\r\n<html><body>hi</body></html>"
    "HTTP/1.1 200 OK\r\nContent-Type: text/html" "<html><body>hi</body></html>"
    "HTTP/1.1 200 OK" ["Content-Type: text/html"] [("content-type", "text/html")]
    "soup crashed" rfl rfl rfl rfl rfl rfl

/-- Claim C8: a response with status code >= 400 is passed through
    untouched: `get` returns its raw body unchanged (no redirect
    resolution is attempted on it) and `make_http_request` hands exactly
    that raw body to the caller without applying the content formatter. -/
theorem error_status_passed_through_raw
    (fmt : String → String → String)
    (findMeta : String → Except String (Option String))
    (net : String → Except String String)
    (url : String) (maxRedirects : Nat)
    (raw headersRaw body statusLine : String) (restLines : List String)
    (headersDict : List (String × String)) (sc : Int)
    (hurl : pyStartsWith url "http://" = true)
    (hnet : net (buildRequest url (dictUpdateL defaultHeaders defaultHeaders)) = .ok raw)
    (hsplit : splitAtFirst "\r\n\r\n" raw = some (headersRaw, body))
    (hlines : pySplitStr "\r\n" headersRaw = statusLine :: restLines)
    (hsc : statusCodeOf statusLine = some sc)
    (hhd : parseHeaderLines restLines = .ok headersDict)
    (h400 : 400 ≤ sc) :
    (get findMeta net url defaultHeaders maxRedirects).result = .ok ⟨sc, body, headersRaw, url⟩
    ∧ make_http_request fmt findMeta net url maxRedirects = body := by
  have h3 : ¬(300 ≤ sc ∧ sc < 400) := by omega
  have h200 : ¬(sc = 200 ∧ strContains (pyLower body) "</html>" = true) := by
    rintro ⟨h, _⟩
    omega
  have hres : getResult findMeta net url defaultHeaders maxRedirects =
      .ok ⟨sc, body, headersRaw, url⟩ := by
    unfold getResult
    simp only [hnet, hsplit, hlines, hsc, hhd, if_neg h3]
    simp [metaOrFinal, h200]
  constructor
  · rw [get_def]
    exact hres
  · unfold make_http_request
    simp only [hurl, Bool.true_or, if_pos]
    rw [get_def]
    simp only [hres]
    simp [h3, h400]

/-- Witness for claim C8 at a concrete 404 response. -/
theorem error_status_passed_through_raw_witness :
    (get bs4FindMetaRefresh
      (fun _ => .ok "HTTP/1.1 404 Not Found\r\nContent-Type: text/html\r\n\r\nnopebody")
      "http://example.com/x" defaultHeaders 5).result =
      .ok ⟨404, "nopebody", "HTTP/1.1 404 Not Found\r\nContent-Type: text/html",
        "http://example.com/x"⟩
    ∧ make_http_request (fun b u => "FORMATTED " ++ b ++ " " ++ u) bs4FindMetaRefresh
      (fun _ => .ok "HTTP/1.1 404 Not Found\r\nContent-Type: text/html\r\n\r\nnopebody")
      "http://example.com/x" 5 = "nopebody" :=
  error_status_passed_through_raw (fun b u => "FORMATTED " ++ b ++ " " ++ u)
    bs4FindMetaRefresh
    (fun _ => .ok "HTTP/1.1 404 Not Found\r\nContent-Type: text/html\r\n\r\nnopebody")
    "http://example.com/x" 5
    "HTTP/1.1 404 Not Found\r\nContent-Type: text/html\r\n\r\nnopebody"
    "HTTP/1.1 404 Not Found\r\nContent-Type: text/html" "nopebody"
    "HTTP/1.1 404 Not Found" ["Content-Type: text/html"] [("content-type", "text/html")]
    404 rfl rfl rfl rfl rfl rfl (by decide)

/-- A nonempty colon-less line anywhere in the header section makes the
    header parse fail, whatever accumulator and surrounding lines. -/
theorem parseHeaderLinesAux_colonless_err (line : String)
    (hne : line ≠ "") (hnc : strContains line ":" = false) :
    ∀ (pre : List String) (acc : List (String × String)) (post : List String),
    isErr (parseHeaderLinesAux acc (pre ++ line :: post)) = true := by
  have hnone : splitAtFirst ":" line = none := by
    cases h : splitAtFirst ":" line with
    | none => rfl
    | some p =>
      exfalso
      rw [strContains, h] at hnc
      exact Bool.noConfusion hnc
  intro pre
  induction pre with
  | nil =>
    intro acc post
    simp only [List.nil_append, parseHeaderLinesAux, if_neg hne, hnone]
    rfl
  | cons p ps ih =>
    intro acc post
    simp only [List.cons_append, parseHeaderLinesAux]
    by_cases hp : p = ""
    · simp only [if_pos hp]
      exact ih acc post
    · simp only [if_neg hp]
      cases h : splitAtFirst ":" p with
      | none => rfl
      | some kv => exact ih _ post

/-- Claim C4 (amended): a nonempty header line with no colon does NOT get
    skipped — it makes the whole header decode (and hence the whole fetch)
    fail with a RequestException, regardless of the well-formed lines
    around it; only empty lines are skipped. -/
theorem colonless_header_aborts_decode (pre post : List String) (line : String)
    (hne : line ≠ "") (hnc : strContains line ":" = false) :
    isErr (parseHeaderLines (pre ++ line :: post)) = true :=
  parseHeaderLinesAux_colonless_err line hne hnc pre [] post

/-- Witness for the amended claim C4. -/
theorem colonless_header_aborts_decode_witness :
    ("BadHeaderNoColon" : String) ≠ ""
    ∧ strContains "BadHeaderNoColon" ":" = false
    ∧ isErr (parseHeaderLines (["Content-Type: text/html"] ++ "BadHeaderNoColon" :: ["Server: x"])) = true :=
  ⟨by decide, by decide,
    colonless_header_aborts_decode ["Content-Type: text/html"] ["Server: x"]
      "BadHeaderNoColon" (by decide) (by decide)⟩

/-- Counterexample to claim C4 as stated: a response whose header section
    contains the colon-less line `BadHeaderNoColon` does not decode to a
    Response from the remaining well-formed lines — the whole fetch fails
    with a RequestException. -/
theorem colonless_header_fails_whole_fetch :
    isErr (get bs4FindMetaRefresh
      (fun _ => .ok "HTTP/1.1 200 OK\r\nBadHeaderNoColon\r\nContent-Type: text/html\r\n\r\n<html>hi</html>")
      "http://example.com/" [] 5).result = true := by
  rfl

/-- Claim C5 (amended): when a response carries multiple `location` header
    lines, the redirect target used is the value of the LAST such line:
    the header map is a dictionary in which a repeated key overwrites the
    earlier value, as the general overwrite law and the concrete parses
    show. -/
theorem last_location_header_wins :
    (∀ (d : List (String × String)) (v1 v2 : String),
      dictFind? (dictInsertL (dictInsertL d "location" v1) "location" v2) "location" = some v2)
    ∧ parseHeaderLines ["Location: /a", "Location: /b"] = .ok [("location", "/b")]
    ∧ (get bs4FindMetaRefresh
        (fun _ => .ok "HTTP/1.1 301 Moved\r\nLocation: http://a.example/first\r\nLocation: http://b.example/second\r\n\r\n")
        "http://example.com/" [] 5).result =
      .ok ⟨301, createRedirectHtml 301 "http://b.example/second",
        "HTTP/1.1 301 Moved\r\nLocation: http://a.example/first\r\nLocation: http://b.example/second",
        "http://example.com/"⟩ := by
  refine ⟨?_, by rfl, by rfl⟩
  intro d v1 v2
  induction d with
  | nil => simp [dictInsertL, dictFind?]
  | cons kv rest ih =>
    by_cases h : kv.1 = "location"
    · simp [dictInsertL, dictFind?, h]
    · simp [dictInsertL, dictFind?, h, ih]

/-- Counterexample to claim C5 as stated: with header lines
    `Location: http://a.example/first` then `Location: http://b.example/second`,
    the notice names the second target, not the first. -/
theorem first_location_header_not_used :
    ((get bs4FindMetaRefresh
        (fun _ => .ok "HTTP/1.1 301 Moved\r\nLocation: http://a.example/first\r\nLocation: http://b.example/second\r\n\r\n")
        "http://example.com/" [] 5).result.map Response.text) ≠
      .ok (createRedirectHtml 301 "http://a.example/first") := by
  decide

/-- Claim C6 (amended): a 200 response is inspected for a document
    redirect only when its body also contains `</html>` (case-insensitive,
    go2web.py line 102); when it does, and the markup parser reports the
    refresh directive `0;url=https://example.com/target`, `get` returns a
    synthesized Redirecting... notice naming that target with status 200
    instead of the original body. -/
theorem get_detects_meta_refresh_with_html_close
    (net : String → Except String String)
    (url : String) (headers : List (String × String)) (maxRedirects : Nat)
    (raw headersRaw body statusLine : String) (restLines : List String)
    (headersDict : List (String × String))
    (hnet : net (buildRequest url (dictUpdateL defaultHeaders headers)) = .ok raw)
    (hsplit : splitAtFirst "\r\n\r\n" raw = some (headersRaw, body))
    (hlines : pySplitStr "\r\n" headersRaw = statusLine :: restLines)
    (hsc : statusCodeOf statusLine = some 200)
    (hhd : parseHeaderLines restLines = .ok headersDict)
    (hhtml : strContains (pyLower body) "</html>" = true)
    (hmeta : bs4FindMetaRefresh body = .ok (some "0;url=https://example.com/target")) :
    get bs4FindMetaRefresh net url headers maxRedirects =
      ⟨.ok ⟨200, createMetaRedirectHtml "https://example.com/target", headersRaw, url⟩, 1⟩ := by
  rw [get_def]
  unfold getResult
  simp only [hnet, hsplit, hlines, hsc, hhd]
  have h3 : ¬((300 : Int) ≤ 200 ∧ (200 : Int) < 400) := by omega
  simp only [if_neg h3]
  unfold metaOrFinal
  simp only [hhtml, hmeta]
  rfl

/-- Witness for the amended claim C6: a full HTML body carrying the
    refresh tag yields the Redirecting... notice for the target. -/
theorem get_detects_meta_refresh_with_html_close_witness :
    get bs4FindMetaRefresh
      (fun _ => .ok "HTTP/1.1 200 OK\r\nContent-Type: text/html\r\n\r\n<html><head><meta http-equiv=\"refresh\" content=\"0;url=https://example.com/target\"></head><body></body></html>")
      "http://example.com/" [] 5 =
      ⟨.ok ⟨200, createMetaRedirectHtml "https://example.com/target",
        "HTTP/1.1 200 OK\r\nContent-Type: text/html", "http://example.com/"⟩, 1⟩ :=
  get_detects_meta_refresh_with_html_close
    (fun _ => .ok "HTTP/1.1 200 OK\r\nContent-Type: text/html\r\n\r\n<html><head><meta http-equiv=\"refresh\" content=\"0;url=https://example.com/target\"></head><body></body></html>")
    "http://example.com/" [] 5
    "HTTP/1.1 200 OK\r\nContent-Type: text/html\r\n\r\n<html><head><meta http-equiv=\"refresh\" content=\"0;url=https://example.com/target\"></head><body></body></html>"
    "HTTP/1.1 200 OK\r\nContent-Type: text/html"
    "<html><head><meta http-equiv=\"refresh\" content=\"0;url=https://example.com/target\"></head><body></body></html>"
    "HTTP/1.1 200 OK" ["Content-Type: text/html"] [("content-type", "text/html")]
    rfl rfl rfl rfl rfl rfl rfl

/-- Counterexample to claim C6 as stated: a 200 response whose body is
    exactly the refresh tag (so it certainly contains it) but no
    `</html>` is returned unchanged — no Redirecting... notice is
    synthesized, because line 102 of the source first requires `</html>`
    in the lower-cased body. -/
theorem meta_refresh_without_html_close_not_detected :
    (get bs4FindMetaRefresh
      (fun _ => .ok "HTTP/1.1 200 OK\r\nContent-Type: text/html\r\n\r\n<meta http-equiv=\"refresh\" content=\"0;url=https://example.com/target\">")
      "http://example.com/" [] 5).result =
      .ok ⟨200, "<meta http-equiv=\"refresh\" content=\"0;url=https://example.com/target\">",
        "HTTP/1.1 200 OK\r\nContent-Type: text/html", "http://example.com/"⟩
    ∧ "<meta http-equiv=\"refresh\" content=\"0;url=https://example.com/target\">" ≠
        createMetaRedirectHtml "https://example.com/target" := by
  exact ⟨rfl, by decide⟩

/-- Claim C9 (amended): `store(k, v)` replaces the in-memory entry for `k`
    with `v` and immediately persists the full map; in the persisted map
    `k` carries `v` with the save-time timestamp, and every OTHER key
    keeps its result value — but its persisted timestamp is NOT preserved:
    `_save_cache` stamps every entry with the current time (line 210). -/
theorem cache_store_restamps_every_timestamp
    (mem : List (String × List String)) (k k' : String) (v rs : List String) (now : Nat)
    (hne : k' ≠ k) (hfind : dictFind? mem k' = some rs) :
    dictFind? (cacheStore mem k v now).1 k = some v
    ∧ dictFind? (cacheStore mem k v now).2 k = some ⟨v, now⟩
    ∧ dictFind? (cacheStore mem k v now).2 k' = some ⟨rs, now⟩ := by
  refine ⟨?_, ?_, ?_⟩
  · simpa [cacheStore] using dictFind_insert_self mem k v
  · simp [cacheStore, dictFind_save_cache, dictFind_insert_self]
  · simp [cacheStore, dictFind_save_cache, dictFind_insert_other _ _ _ _ hne, hfind]

/-- Witness for the amended claim C9. -/
theorem cache_store_restamps_every_timestamp_witness :
    ("a" : String) ≠ "b"
    ∧ dictFind? [("a", ["r1"])] "a" = some ["r1"]
    ∧ (dictFind? (cacheStore [("a", ["r1"])] "b" ["r2"] 200).1 "b" = some ["r2"]
       ∧ dictFind? (cacheStore [("a", ["r1"])] "b" ["r2"] 200).2 "b" = some ⟨["r2"], 200⟩
       ∧ dictFind? (cacheStore [("a", ["r1"])] "b" ["r2"] 200).2 "a" = some ⟨["r1"], 200⟩) :=
  ⟨by decide, by decide,
    cache_store_restamps_every_timestamp [("a", ["r1"])] "b" "a" ["r2"] ["r1"] 200
      (by decide) (by decide)⟩

/-- Counterexample to claim C9 as stated: with one persisted entry for
    key `a` saved at time 100, storing a different key `b` at time 200
    rewrites the persisted timestamp of `a` from 100 to 200 — the stored
    timestamps of other keys are not left unchanged. -/
theorem cache_store_changes_other_timestamps :
    dictFind? (save_cache [("a", ["r1"])] 100) "a" = some ⟨["r1"], 100⟩
    ∧ dictFind? (cacheStore [("a", ["r1"])] "b" ["r2"] 200).2 "a" = some ⟨["r1"], 200⟩
    ∧ (⟨["r1"], 200⟩ : CacheFileEntry) ≠ ⟨["r1"], 100⟩ := by
  exact ⟨rfl, rfl, by decide⟩
